import Mathlib

/-!
Shallow embedding of the Material Management Dashboard core
(filtering, aggregation, export) from `src/idiots.py`, function `dashboard`.

Numeric cells are modelled as exact rationals; a missing (NaN) cell of the
optional `Cost` column is `Option.none`.  Pandas timestamps are modelled as a
calendar day (an integer) together with a time-of-day component in minutes:
`pd.to_datetime` of a calendar date yields midnight (`tod = 0`), while raw
ticket values may carry a nonzero time of day.  IEEE-754 division, used
unguarded at line 266 of the source, is modelled by `PValue` which makes the
infinity / NaN outcomes of a zero denominator explicit.
-/

/-- A pandas timestamp: calendar day plus minutes past midnight. -/
structure Timestamp where
  day : Int
  tod : Nat
deriving DecidableEq

/-- Timestamp comparison, as pandas compares full timestamps. -/
def tsLe (a b : Timestamp) : Bool :=
  decide (a.day < b.day ∨ (a.day = b.day ∧ a.tod ≤ b.tod))

/-- `pd.to_datetime` applied to a calendar date: midnight of that day
(line 154 of the source converts both date-range bounds this way). -/
def dateToTs (d : Int) : Timestamp := ⟨d, 0⟩

/-- One ticket row of the INCOMING or OUTGOING sheet.  `cost` is the value of
the optional `Cost` cell (`none` models NaN); `grade` likewise for `Grade`. -/
structure Row where
  ticketDate : Timestamp
  customerName : String
  wasteTypeId : String
  netWeight : ℚ
  cost : Option ℚ
  grade : Option String
deriving DecidableEq

/-- A loaded sheet: its column names and its rows.  Presence of the optional
`Cost` column is decided exactly as the source does (`"Cost" in df.columns`). -/
structure Frame where
  cols : List String
  rows : List Row
deriving DecidableEq

/-- `"Cost" in df.columns` (line 180 of the source). -/
def Frame.hasCost (f : Frame) : Bool := f.cols.contains "Cost"

/-- IEEE-754-style value produced by pandas float division: a finite number,
an infinity, or NaN. -/
inductive PValue where
  | num : ℚ → PValue
  | inf : PValue
  | negInf : PValue
  | nan : PValue
deriving DecidableEq

/-- Float division as pandas performs it: finite quotient when the denominator
is nonzero, otherwise a signed infinity (or NaN for 0/0). -/
def floatDiv (a b : ℚ) : PValue :=
  if b ≠ 0 then PValue.num (a / b)
  else if 0 < a then PValue.inf
  else if a < 0 then PValue.negInf
  else PValue.nan

/-- Price filter state (line 128): radio with options All / Priced / Not Priced. -/
inductive PriceStatus where
  | all : PriceStatus
  | priced : PriceStatus
  | notPriced : PriceStatus
deriving DecidableEq

/-- The filter selections consumed by the filtering section (lines 154-173):
date-range bounds as calendar days, customer (`none` is the "All" sentinel),
the waste-type set after "All"-resolution, and the price-filter state. -/
structure FilterSpec where
  startDate : Int
  endDate : Int
  customer : Option String
  wasteTypes : List String
  priceStatus : PriceStatus
deriving DecidableEq

/-- `.str.strip()`: remove leading and trailing whitespace, phrased over the
character list so that it evaluates. -/
def pyStrip (s : String) : String :=
  ⟨((s.data.dropWhile Char.isWhitespace).reverse.dropWhile Char.isWhitespace).reverse⟩

/-- `incoming_df["Waste Type ID"].astype(str).str.strip().unique()`
(line 122): the trimmed waste types observed in the Incoming set, which is what
the "All" sentinel resolves to (lines 124-125). -/
def wasteTypeOptions (rows : List Row) : List String :=
  (rows.map (fun r => pyStrip r.wasteTypeId)).dedup

/-- `df["Ticket Date"].between(start_date, end_date)` (lines 157 and 161):
inclusive comparison of the full ticket timestamp against the
midnight-normalized bounds. -/
def dateOk (spec : FilterSpec) (r : Row) : Bool :=
  tsLe (dateToTs spec.startDate) r.ticketDate && tsLe r.ticketDate (dateToTs spec.endDate)

/-- `df["Waste Type ID"].astype(str).str.strip().isin(waste_type)`
(lines 158 and 162). -/
def wasteOk (spec : FilterSpec) (r : Row) : Bool :=
  spec.wasteTypes.contains (pyStrip r.wasteTypeId)

/-- The customer mask of lines 166-167; with the "All" sentinel no constraint
is applied (line 165). -/
def customerOk (spec : FilterSpec) (r : Row) : Bool :=
  match spec.customer with
  | none => true
  | some c => r.customerName == c

/-- `filtered_incoming["Cost"] > 0` (line 171); a NaN cell compares false. -/
def pricedMask (r : Row) : Bool :=
  match r.cost with
  | some c => decide (0 < c)
  | none => false

/-- `(Cost == 0) | (Cost.isna())` (line 173). -/
def notPricedMask (r : Row) : Bool :=
  match r.cost with
  | some c => decide (c = 0)
  | none => true

/-- The price mask actually applied to the Incoming view for a given
price-filter state (lines 170-173; "All" applies no mask). -/
def priceOk (spec : FilterSpec) (r : Row) : Bool :=
  match spec.priceStatus with
  | PriceStatus.all => true
  | PriceStatus.priced => pricedMask r
  | PriceStatus.notPriced => notPricedMask r

/-- `filtered_incoming` (lines 156-159, then 165-167, then 170-173): the date
and waste-type masks, the conditional customer mask, and the conditional price
mask, applied in the source's order. -/
def filteredIncoming (spec : FilterSpec) (rows : List Row) : List Row :=
  let base := rows.filter (fun r => dateOk spec r && wasteOk spec r)
  let afterCustomer :=
    match spec.customer with
    | none => base
    | some _ => base.filter (fun r => customerOk spec r)
  match spec.priceStatus with
  | PriceStatus.all => afterCustomer
  | PriceStatus.priced => afterCustomer.filter (fun r => pricedMask r)
  | PriceStatus.notPriced => afterCustomer.filter (fun r => notPricedMask r)

/-- `filtered_outgoing` (lines 160-163 and 165-167): date, waste-type and
conditional customer masks; the price filter is never applied to Outgoing. -/
def filteredOutgoing (spec : FilterSpec) (rows : List Row) : List Row :=
  let base := rows.filter (fun r => dateOk spec r && wasteOk spec r)
  match spec.customer with
  | none => base
  | some _ => base.filter (fun r => customerOk spec r)

/-- `filtered["Net Weight (tn)"].sum()` (lines 178-179). -/
def totalWeight (rows : List Row) : ℚ :=
  (rows.map Row.netWeight).sum

/-- `filtered_incoming["Cost"].sum() if "Cost" in filtered_incoming.columns
else 0` (line 180); pandas `sum` skips NaN cells. -/
def totalCost (hasCost : Bool) (rows : List Row) : ℚ :=
  if hasCost then (rows.map (fun r => r.cost.getD 0)).sum else 0

/-- `total_cost / incoming_total if incoming_total > 0 else 0` (line 181). -/
def avgCostTn (hasCost : Bool) (rows : List Row) : ℚ :=
  if 0 < totalWeight rows then totalCost hasCost rows / totalWeight rows else 0

/-- `df.groupby(key)[val].sum()`: one entry per distinct key value, pairing the
key with the sum of `val` over the rows having that key. -/
def groupAgg {α : Type} [DecidableEq α] (key : Row → α) (val : Row → ℚ)
    (rows : List Row) : List (α × ℚ) :=
  (rows.map key).dedup.map
    (fun k => (k, ((rows.filter (fun r => decide (key r = k))).map val).sum))

/-- `groupby("Waste Type ID")["Net Weight (tn)"].sum()` (lines 202 and 204). -/
def wasteSeries (rows : List Row) : List (String × ℚ) :=
  groupAgg (fun r => r.wasteTypeId) Row.netWeight rows

/-- `groupby("Ticket Date")["Net Weight (tn)"].sum()` (lines 243 and 245). -/
def dailySeries (rows : List Row) : List (Timestamp × ℚ) :=
  groupAgg Row.ticketDate Row.netWeight rows

/-- `groupby("Grade")["Net Weight (tn)"].sum()` (lines 226 and 234); pandas
groupby drops rows whose key cell is NaN. -/
def gradeSeries (rows : List Row) : List (String × ℚ) :=
  (rows.filterMap Row.grade).dedup.map
    (fun g => (g, ((rows.filter (fun r => decide (r.grade = some g))).map Row.netWeight).sum))

/-- The Cost per Tonne trend series (lines 263-266): group filtered Incoming
by ticket date, sum `Cost` and `Net Weight (tn)` per date, merge on the date,
and divide the sums with pandas float division — no zero-weight guard. -/
def dailyCpt (rows : List Row) : List (Timestamp × PValue) :=
  (rows.map Row.ticketDate).dedup.map
    (fun d =>
      let grp := rows.filter (fun r => decide (r.ticketDate = d))
      (d, floatDiv ((grp.map (fun r => r.cost.getD 0)).sum) ((grp.map Row.netWeight).sum)))

/-- The per-row derived column of lines 90-93:
`Cost / Net Weight if Net Weight > 0 else 0`, where a NaN `Cost` cell makes
the quotient NaN. -/
def costPerTonneColumn (rows : List Row) : List (Option ℚ) :=
  rows.map (fun r => if 0 < r.netWeight then r.cost.map (fun c => c / r.netWeight) else some 0)

/-- Lines 90-93 as a load step: `df.apply(lambda row: row["Cost"] / ...)`
evaluates `row["Cost"]` on every row, so a nonempty sheet without a `Cost`
column raises `KeyError` (on an empty sheet the lambda never runs).  On
success the frame gains the derived column. -/
def deriveCostPerTonne (f : Frame) : Except String (Frame × List (Option ℚ)) :=
  if f.rows.isEmpty then
    Except.ok (⟨f.cols ++ ["Cost per Tonne"], f.rows⟩, [])
  else if f.hasCost then
    Except.ok (⟨f.cols ++ ["Cost per Tonne"], f.rows⟩, costPerTonneColumn f.rows)
  else
    Except.error "KeyError: Cost"

/-- One sheet of the exported workbook: its tab name, the header row
(the frame's columns), and the data rows in frame order. -/
structure Sheet where
  name : String
  header : List String
  rows : List Row
deriving DecidableEq

/-- A calendar date used for the report filename. -/
structure Date where
  year : Nat
  month : Nat
  day : Nat
deriving DecidableEq

/-- Zero-pad to two digits, as `datetime.date` renders months and days. -/
def pad2 (n : Nat) : String :=
  if n < 10 then "0" ++ toString n else toString n

/-- Zero-pad to four digits, as `datetime.date` renders years. -/
def pad4 (n : Nat) : String :=
  if n < 10 then "000" ++ toString n
  else if n < 100 then "00" ++ toString n
  else if n < 1000 then "0" ++ toString n
  else toString n

/-- `str(start_date.date())`: ISO calendar-date formatting YYYY-MM-DD. -/
def isoDate (d : Date) : String :=
  pad4 d.year ++ "-" ++ pad2 d.month ++ "-" ++ pad2 d.day

/-- The exported workbook: the download filename and the sheets in order. -/
structure ExportFile where
  filename : String
  sheets : List Sheet
deriving DecidableEq

/-- Lines 288-297: write the filtered Incoming and Outgoing views to the
sheets "Incoming" and "Outgoing" of one workbook and name the download
`Waste_Report_{start_date.date()}_{end_date.date()}.xlsx`. -/
def exportReport (incoming outgoing : Frame) (startDate endDate : Date) : ExportFile :=
  { filename := "Waste_Report_" ++ isoDate startDate ++ "_" ++ isoDate endDate ++ ".xlsx",
    sheets := [⟨"Incoming", incoming.cols, incoming.rows⟩,
               ⟨"Outgoing", outgoing.cols, outgoing.rows⟩] }

/-- Apply a sequence of row masks one after another, each to the previous
result, as the source's successive boolean-mask selections do. -/
def applySteps (steps : List (Row → Bool)) (rows : List Row) : List Row :=
  steps.foldl (fun acc p => acc.filter p) rows

/-- The four masks the source applies to the Incoming view, in source order. -/
def incomingSteps (spec : FilterSpec) : List (Row → Bool) :=
  [dateOk spec, wasteOk spec, customerOk spec, priceOk spec]

/-- The three masks the source applies to the Outgoing view, in source order. -/
def outgoingSteps (spec : FilterSpec) : List (Row → Bool) :=
  [dateOk spec, wasteOk spec, customerOk spec]

/-- A filter specification with every non-date filter at its sentinel:
customer "All", waste types resolved from the given Incoming rows
(lines 122-125), price filter "All". -/
def sentinelSpec (a b : Int) (rows : List Row) : FilterSpec :=
  ⟨a, b, none, wasteTypeOptions rows, PriceStatus.all⟩

/-- A spec equal to `spec` except for the price-filter state. -/
def setPrice (spec : FilterSpec) (ps : PriceStatus) : FilterSpec :=
  ⟨spec.startDate, spec.endDate, spec.customer, spec.wasteTypes, ps⟩

/-! Sample data used by witnesses and counterexamples. -/

/-- A priced incoming ticket at midnight of day 0. -/
def rowA : Row := ⟨⟨0, 0⟩, "Acme", "W1", 10, some 100, some "Ferrous"⟩

/-- A priced incoming ticket at midnight of day 1. -/
def rowB : Row := ⟨⟨1, 0⟩, "Bolt", "W2", 1, some 50, none⟩

/-- A ticket timestamped at noon of day 0. -/
def rowNoon : Row := ⟨⟨0, 720⟩, "Acme", "W1", 1, some 5, none⟩

/-- A ticket with cost but zero net weight. -/
def rowZeroW : Row := ⟨⟨0, 0⟩, "Acme", "W1", 0, some 5, none⟩

/-- An outgoing ticket whose waste type occurs in no incoming row. -/
def rowOutX : Row := ⟨⟨1, 0⟩, "Acme", "ZZ", 2, none, none⟩

/-! ## General lemmas about the filter chain -/

/-- The Incoming filter chain of the source equals a single filter by the
conjunction of the four row masks. -/
theorem filteredIncoming_eq_filter (spec : FilterSpec) (rows : List Row) :
    filteredIncoming spec rows =
      rows.filter (fun r =>
        dateOk spec r && wasteOk spec r && customerOk spec r && priceOk spec r) := by
  unfold filteredIncoming
  cases hc : spec.customer <;> cases hp : spec.priceStatus <;>
    simp only [List.filter_filter] <;>
    exact List.filter_congr (fun r _ => by
      simp [customerOk, priceOk, hc, hp, Bool.and_comm])

/-- The Outgoing filter chain of the source equals a single filter by the
conjunction of its three row masks. -/
theorem filteredOutgoing_eq_filter (spec : FilterSpec) (rows : List Row) :
    filteredOutgoing spec rows =
      rows.filter (fun r => dateOk spec r && wasteOk spec r && customerOk spec r) := by
  unfold filteredOutgoing
  cases hc : spec.customer <;>
    simp only [List.filter_filter] <;>
    exact List.filter_congr (fun r _ => by
      simp [customerOk, hc, Bool.and_comm])

/-- For a row with a midnight timestamp, the between-mask is the inclusive
calendar-day test. -/
theorem dateOk_of_tod_zero (spec : FilterSpec) (r : Row) (h : r.ticketDate.tod = 0) :
    dateOk spec r
      = decide (spec.startDate ≤ r.ticketDate.day ∧ r.ticketDate.day ≤ spec.endDate) := by
  rw [Bool.eq_iff_iff]
  simp only [dateOk, tsLe, dateToTs, h, Bool.and_eq_true, decide_eq_true_eq]
  omega

/-- The date range [0, 0] with waste type "W1" selected, no customer
constraint and no price constraint. -/
def spec3 : FilterSpec := ⟨0, 0, none, ["W1"], PriceStatus.all⟩

/-- A date range [10, 11] that no sample record falls in. -/
def spec9 : FilterSpec := ⟨10, 11, none, ["W1"], PriceStatus.all⟩

/-- A specification engaging all four filters at once. -/
def spec6 : FilterSpec := ⟨0, 5, some "Acme", ["W1"], PriceStatus.priced⟩

/-- A nonempty incoming sheet whose source schema lacks the `Cost` column. -/
def incomingNoCost : Frame :=
  ⟨["Ticket Date", "Customer Name", "Waste Type ID", "Net Weight (tn)"], [rowA]⟩

/-! ## Claims -/

/-- C1: for every filtered Incoming view, the average-cost-per-tonne KPI
equals `total_cost / incoming_total_weight` when the summed weight is
positive and `0` when the summed weight is zero — the weighted average of
summed cost over summed weight, total over exact rationals, so no exception
or NaN can arise. -/
theorem c1_avg_cost_per_tonne_weighted (hasCost : Bool) (rows : List Row) :
    (0 < totalWeight rows →
      avgCostTn hasCost rows = totalCost hasCost rows / totalWeight rows)
    ∧ (totalWeight rows = 0 → avgCostTn hasCost rows = 0) := by
  refine ⟨fun h => ?_, fun h => ?_⟩
  · simp [avgCostTn, h]
  · simp [avgCostTn, h]

/-- Witness for C1: a priced two-row view with positive total weight, and a
view whose only row has zero weight. -/
theorem c1_avg_cost_per_tonne_weighted_witness :
    (0 < totalWeight [rowA, rowB]
      ∧ avgCostTn true [rowA, rowB] = totalCost true [rowA, rowB] / totalWeight [rowA, rowB])
    ∧ (totalWeight [rowZeroW] = 0 ∧ avgCostTn true [rowZeroW] = 0) := by
  have hw : (0 : ℚ) < totalWeight [rowA, rowB] := by norm_num [totalWeight, rowA, rowB]
  have hz : totalWeight [rowZeroW] = 0 := by norm_num [totalWeight, rowZeroW]
  exact ⟨⟨hw, (c1_avg_cost_per_tonne_weighted true [rowA, rowB]).1 hw⟩,
    hz, (c1_avg_cost_per_tonne_weighted true [rowZeroW]).2 hz⟩

/-- C5: the price-status filter touches only the Incoming view — the filtered
Outgoing view is identical for any two price-filter states under otherwise
equal filters — and its semantics is priced = `cost > 0`, unpriced = `cost`
zero or absent. -/
theorem c5_price_filter_incoming_only (spec : FilterSpec) (rowsIn rowsOut : List Row)
    (ps₁ ps₂ : PriceStatus) (r : Row) :
    filteredOutgoing (setPrice spec ps₁) rowsOut = filteredOutgoing (setPrice spec ps₂) rowsOut
    ∧ (pricedMask r = true ↔ ∃ c, r.cost = some c ∧ 0 < c)
    ∧ (notPricedMask r = true ↔ r.cost = none ∨ r.cost = some 0)
    ∧ (r ∈ filteredIncoming (setPrice spec PriceStatus.priced) rowsIn ↔
        r ∈ filteredIncoming (setPrice spec PriceStatus.all) rowsIn ∧ pricedMask r = true)
    ∧ (r ∈ filteredIncoming (setPrice spec PriceStatus.notPriced) rowsIn ↔
        r ∈ filteredIncoming (setPrice spec PriceStatus.all) rowsIn ∧ notPricedMask r = true) := by
  refine ⟨rfl, ?_, ?_, ?_, ?_⟩
  · cases hc : r.cost <;> simp [pricedMask, hc]
  · cases hc : r.cost <;> simp [notPricedMask, hc]
  · simp only [filteredIncoming_eq_filter, List.mem_filter, setPrice, priceOk,
      Bool.and_eq_true, Bool.and_true]
    tauto
  · simp only [filteredIncoming_eq_filter, List.mem_filter, setPrice, priceOk,
      Bool.and_eq_true, Bool.and_true]
    tauto

/-- C3 counterexample: a record timestamped at noon of the end date has its
calendar day inside the range yet is rejected by the date filter, because the
source compares the full timestamp against the midnight-normalized bounds. -/
theorem c3_counterexample :
    dateOk spec3 rowNoon = false
    ∧ spec3.startDate ≤ rowNoon.ticketDate.day
    ∧ rowNoon.ticketDate.day ≤ spec3.endDate
    ∧ rowNoon ∉ filteredIncoming spec3 [rowNoon] := by decide

/-- C3 amended: the date filter compares full timestamps with
midnight-normalized bounds, so for every record whose ticket timestamp has a
zero time-of-day component the filter is exactly the inclusive calendar test
`start_date ≤ d ≤ end_date`; a record dated on the end date with nonzero
time-of-day is excluded. -/
theorem c3_date_filter_amended (spec : FilterSpec) (r : Row) (h : r.ticketDate.tod = 0) :
    dateOk spec r = true ↔
      (spec.startDate ≤ r.ticketDate.day ∧ r.ticketDate.day ≤ spec.endDate) := by
  rw [dateOk_of_tod_zero spec r h, decide_eq_true_eq]

/-- Witness for the amended C3 at a midnight-stamped record inside the range. -/
theorem c3_date_filter_amended_witness :
    rowA.ticketDate.tod = 0
    ∧ (dateOk spec3 rowA = true ↔
        (spec3.startDate ≤ rowA.ticketDate.day ∧ rowA.ticketDate.day ≤ spec3.endDate)) :=
  ⟨rfl, c3_date_filter_amended spec3 rowA rfl⟩

/-- C2, evaluated at the failing input: one ticket with cost 5 and zero net
weight makes the Cost per Tonne trend series carry `+∞` for that date — the
unguarded division of line 266 neither excludes the zero-weight date nor maps
it to a fallback value. -/
theorem c2_daily_cpt_infinity :
    dailyCpt [rowZeroW] = [(⟨0, 0⟩, PValue.inf)] := by
  norm_num [dailyCpt, rowZeroW, floatDiv]

/-- C4, evaluated at the failing input: loading a nonempty incoming sheet
without a `Cost` column raises `KeyError` in the per-row derivation of
lines 90-93, even though the KPI of line 180 guards the same absence. -/
theorem c4_missing_cost_column_raises :
    deriveCostPerTonne incomingNoCost = Except.error "KeyError: Cost"
    ∧ totalCost false incomingNoCost.rows = 0 :=
  ⟨rfl, rfl⟩

/-- C9: when the filtered Incoming and Outgoing views are both empty, every
aggregation is total: the four scalar KPIs are 0 and every grouped series —
by waste type, by date, by grade, and the cost-per-tonne trend — is empty. -/
theorem c9_empty_views_total (spec : FilterSpec) (hasCost : Bool)
    (rowsIn rowsOut : List Row)
    (hin : filteredIncoming spec rowsIn = [])
    (hout : filteredOutgoing spec rowsOut = []) :
    totalWeight (filteredIncoming spec rowsIn) = 0
    ∧ totalWeight (filteredOutgoing spec rowsOut) = 0
    ∧ totalCost hasCost (filteredIncoming spec rowsIn) = 0
    ∧ avgCostTn hasCost (filteredIncoming spec rowsIn) = 0
    ∧ wasteSeries (filteredIncoming spec rowsIn) = []
    ∧ wasteSeries (filteredOutgoing spec rowsOut) = []
    ∧ dailySeries (filteredIncoming spec rowsIn) = []
    ∧ dailySeries (filteredOutgoing spec rowsOut) = []
    ∧ gradeSeries (filteredIncoming spec rowsIn) = []
    ∧ gradeSeries (filteredOutgoing spec rowsOut) = []
    ∧ dailyCpt (filteredIncoming spec rowsIn) = [] := by
  rw [hin, hout]
  cases hasCost <;>
    norm_num [totalWeight, totalCost, avgCostTn, wasteSeries, dailySeries,
      gradeSeries, dailyCpt, groupAgg]

/-- Witness for C9: a date range containing no record empties both views. -/
theorem c9_empty_views_total_witness :
    filteredIncoming spec9 [rowA] = []
    ∧ filteredOutgoing spec9 [rowB] = []
    ∧ avgCostTn true (filteredIncoming spec9 [rowA]) = 0
    ∧ dailyCpt (filteredIncoming spec9 [rowA]) = []
    ∧ wasteSeries (filteredOutgoing spec9 [rowB]) = [] := by
  have h := c9_empty_views_total spec9 true [rowA] [rowB] rfl rfl
  exact ⟨rfl, rfl, h.2.2.2.1, h.2.2.2.2.2.2.2.2.2.2, h.2.2.2.2.2.1⟩

/-- C10: the "all types" sentinel resolves to exactly the trimmed waste types
observed in the Incoming set, and that set also filters the Outgoing view, so
an outgoing record whose trimmed waste type occurs nowhere in the Incoming
set is excluded from the filtered Outgoing view even under the sentinel. -/
theorem c10_sentinel_excludes_unseen_outgoing (rowsIn rowsOut : List Row)
    (spec : FilterSpec) (x : String) (r : Row)
    (hspec : spec.wasteTypes = wasteTypeOptions rowsIn)
    (hr : pyStrip r.wasteTypeId ∉ rowsIn.map (fun q => pyStrip q.wasteTypeId)) :
    (x ∈ wasteTypeOptions rowsIn ↔ ∃ q ∈ rowsIn, pyStrip q.wasteTypeId = x)
    ∧ r ∉ filteredOutgoing spec rowsOut := by
  constructor
  · simp [wasteTypeOptions, List.mem_dedup, List.mem_map]
  · intro hmem
    rw [filteredOutgoing_eq_filter, List.mem_filter] at hmem
    obtain ⟨-, hmask⟩ := hmem
    simp only [Bool.and_eq_true] at hmask
    obtain ⟨⟨-, hwaste⟩, -⟩ := hmask
    rw [wasteOk, hspec] at hwaste
    have hx : pyStrip r.wasteTypeId ∈ wasteTypeOptions rowsIn := by
      simpa using hwaste
    rw [wasteTypeOptions, List.mem_dedup] at hx
    exact hr hx

/-- Witness for C10: one incoming waste type "W1"; an outgoing ticket typed
"ZZ" vanishes from the Outgoing view under the sentinel specification. -/
theorem c10_sentinel_excludes_unseen_outgoing_witness :
    ("W1" ∈ wasteTypeOptions [rowA] ↔ ∃ q ∈ [rowA], pyStrip q.wasteTypeId = "W1")
    ∧ rowOutX ∉ filteredOutgoing (sentinelSpec 0 5 [rowA]) [rowOutX] :=
  c10_sentinel_excludes_unseen_outgoing [rowA] [rowOutX] (sentinelSpec 0 5 [rowA])
    "W1" rowOutX rfl (by decide)

/-- C8: the export is a single workbook holding exactly the sheets "Incoming"
and "Outgoing" with the filtered views' columns and rows in original order and
no aggregation, under the deterministic filename
`Waste_Report_{start}_{end}.xlsx` with ISO calendar-date formatting; an empty
view still yields its sheet, with the headers and no rows.  `exportReport` is
a pure function, so equal inputs give identical filenames and sheets. -/
theorem c8_export_structure (incoming outgoing : Frame) (s e : Date) :
    (exportReport incoming outgoing s e).filename
        = "Waste_Report_" ++ isoDate s ++ "_" ++ isoDate e ++ ".xlsx"
    ∧ (exportReport incoming outgoing s e).sheets
        = [⟨"Incoming", incoming.cols, incoming.rows⟩,
           ⟨"Outgoing", outgoing.cols, outgoing.rows⟩]
    ∧ (exportReport ⟨incoming.cols, []⟩ outgoing s e).sheets.head?
        = some ⟨"Incoming", incoming.cols, []⟩
    ∧ isoDate ⟨2024, 3, 7⟩ = "2024-03-07"
    ∧ isoDate ⟨987, 12, 1⟩ = "0987-12-01" :=
  ⟨rfl, rfl, rfl, rfl, rfl⟩

/-! ## Filter composition (C6) -/

/-- Applying masks one after another is one filter by their conjunction. -/
theorem applySteps_eq_filter (steps : List (Row → Bool)) (rows : List Row) :
    applySteps steps rows = rows.filter (fun r => steps.all (fun p => p r)) := by
  induction steps generalizing rows with
  | nil => simp [applySteps]
  | cons p ps ih =>
    have h1 : applySteps (p :: ps) rows = applySteps ps (rows.filter p) := rfl
    rw [h1, ih, List.filter_filter]
    exact List.filter_congr (fun r _ => by simp [Bool.and_comm])

/-- `List.all` is invariant under permutation of the list. -/
theorem perm_all {α : Type} (f : α → Bool) {l₁ l₂ : List α} (h : l₁.Perm l₂) :
    l₁.all f = l₂.all f := by
  rw [Bool.eq_iff_iff, List.all_eq_true, List.all_eq_true]
  exact ⟨fun hp x hx => hp x (h.mem_iff.mpr hx), fun hp x hx => hp x (h.mem_iff.mp hx)⟩

/-- C6: the four filters compose conjunctively — a record is kept iff it
passes every individual mask — and applying the filter steps in any order
yields exactly the source's filtered views, for Incoming and Outgoing. -/
theorem c6_filters_conjunctive_commutative (spec : FilterSpec) (rowsIn rowsOut : List Row)
    (stepsIn stepsOut : List (Row → Bool))
    (hin : stepsIn.Perm (incomingSteps spec)) (hout : stepsOut.Perm (outgoingSteps spec)) :
    applySteps stepsIn rowsIn = filteredIncoming spec rowsIn
    ∧ applySteps stepsOut rowsOut = filteredOutgoing spec rowsOut
    ∧ (∀ r, r ∈ filteredIncoming spec rowsIn ↔
        r ∈ rowsIn ∧ dateOk spec r = true ∧ wasteOk spec r = true
          ∧ customerOk spec r = true ∧ priceOk spec r = true)
    ∧ (∀ r, r ∈ filteredOutgoing spec rowsOut ↔
        r ∈ rowsOut ∧ dateOk spec r = true ∧ wasteOk spec r = true
          ∧ customerOk spec r = true) := by
  refine ⟨?_, ?_, ?_, ?_⟩
  · rw [applySteps_eq_filter, filteredIncoming_eq_filter]
    refine List.filter_congr (fun r _ => ?_)
    rw [perm_all _ hin]
    simp [incomingSteps, Bool.and_assoc]
  · rw [applySteps_eq_filter, filteredOutgoing_eq_filter]
    refine List.filter_congr (fun r _ => ?_)
    rw [perm_all _ hout]
    simp [outgoingSteps, Bool.and_assoc]
  · intro r
    rw [filteredIncoming_eq_filter, List.mem_filter]
    simp [and_assoc]
  · intro r
    rw [filteredOutgoing_eq_filter, List.mem_filter]
    simp [and_assoc]

/-- Witness for C6: reversing the order of the filter steps leaves both
filtered views unchanged on concrete data. -/
theorem c6_filters_conjunctive_commutative_witness :
    applySteps (incomingSteps spec6).reverse [rowA, rowB] = filteredIncoming spec6 [rowA, rowB]
    ∧ applySteps (outgoingSteps spec6).reverse [rowB] = filteredOutgoing spec6 [rowB] := by
  have h := c6_filters_conjunctive_commutative spec6 [rowA, rowB] [rowB]
    (incomingSteps spec6).reverse (outgoingSteps spec6).reverse
    (List.reverse_perm _) (List.reverse_perm _)
  exact ⟨h.1, h.2.1⟩

/-! ## KPI conservation over a date partition (C7) -/

/-- Unfolding `totalWeight` over a cons cell. -/
theorem totalWeight_cons (r : Row) (l : List Row) :
    totalWeight (r :: l) = r.netWeight + totalWeight l := by
  simp [totalWeight]

/-- The summed weight of a filtered list, as a sum of guarded summands. -/
theorem totalWeight_filter (p : Row → Bool) (rows : List Row) :
    totalWeight (rows.filter p)
      = (rows.map (fun r => if p r then r.netWeight else 0)).sum := by
  induction rows with
  | nil => rfl
  | cons r rs ih =>
    rw [List.filter_cons]
    cases h : p r <;> simp [h, totalWeight_cons, ih]

/-- Mapped sums of rationals distribute over pointwise addition. -/
theorem qsum_map_add {β : Type} (B : List β) (g h : β → ℚ) :
    (B.map (fun b => g b + h b)).sum = (B.map g).sum + (B.map h).sum := by
  induction B with
  | nil => simp
  | cons b l ih =>
    simp only [List.map_cons, List.sum_cons, ih]
    ring

/-- A mapped sum of zeros is zero. -/
theorem qsum_map_zero {β : Type} (B : List β) : (B.map (fun _ => (0 : ℚ))).sum = 0 := by
  induction B with
  | nil => rfl
  | cons b t ih => rw [List.map_cons, List.sum_cons, ih, add_zero]

/-- A double sum of rationals over two lists can be summed in either order. -/
theorem sum_map_swap {α β : Type} (A : List α) (B : List β) (f : α → β → ℚ) :
    (A.map (fun a => (B.map (f a)).sum)).sum
      = (B.map (fun b => (A.map (fun a => f a b)).sum)).sum := by
  induction A with
  | nil =>
    simp only [List.map_nil, List.sum_nil]
    exact (qsum_map_zero B).symm
  | cons a l ih =>
    simp only [List.map_cons, List.sum_cons]
    rw [qsum_map_add B (fun b => f a b) (fun b => (l.map (fun x => f x b)).sum), ih]

/-- Summing a guard that pays `w` once per satisfied element counts the
satisfying elements. -/
theorem qsum_count {γ : Type} (L : List γ) (q : γ → Bool) (w : ℚ) :
    (L.map (fun x => if q x then w else 0)).sum = (L.countP q : ℚ) * w := by
  induction L with
  | nil => simp
  | cons x l ih =>
    cases h : q x <;>
      simp only [List.map_cons, List.sum_cons, List.countP_cons, h, ih] <;>
      push_cast <;> ring

/-- Under the sentinel specification the Incoming filter reduces to the date
mask alone: the customer and price sentinels pass every row, and every
incoming row's trimmed waste type is in the resolved "all types" set. -/
theorem filteredIncoming_sentinel (a b : Int) (rows : List Row) :
    filteredIncoming (sentinelSpec a b rows) rows
      = rows.filter (fun r => dateOk (sentinelSpec a b rows) r) := by
  rw [filteredIncoming_eq_filter]
  refine List.filter_congr (fun r hr => ?_)
  have hw : wasteOk (sentinelSpec a b rows) r = true := by
    simp only [wasteOk, sentinelSpec, wasteTypeOptions]
    simp only [List.elem_eq_mem, List.mem_dedup, List.mem_map, decide_eq_true_eq]
    exact ⟨r, hr, rfl⟩
  have hc : customerOk (sentinelSpec a b rows) r = true := rfl
  have hp : priceOk (sentinelSpec a b rows) r = true := rfl
  rw [hw, hc, hp, Bool.and_true, Bool.and_true, Bool.and_true]

/-- C7 amended: for an Incoming set whose ticket timestamps carry no
time-of-day component, the unfiltered total weight equals the sum of the
filtered total weights over any family of date sub-ranges containing each
record's day exactly once (a disjoint cover of the date range), the other
filters held at their sentinels. -/
theorem c7_weight_conservation (rows : List Row) (ranges : List (Int × Int))
    (htod : ∀ r ∈ rows, r.ticketDate.tod = 0)
    (hpart : ∀ r ∈ rows,
      ranges.countP
        (fun rg => decide (rg.1 ≤ r.ticketDate.day ∧ r.ticketDate.day ≤ rg.2)) = 1) :
    totalWeight rows
      = (ranges.map
          (fun rg => totalWeight (filteredIncoming (sentinelSpec rg.1 rg.2 rows) rows))).sum := by
  have h1 : ∀ rg : Int × Int,
      totalWeight (filteredIncoming (sentinelSpec rg.1 rg.2 rows) rows)
        = (rows.map (fun r =>
            if decide (rg.1 ≤ r.ticketDate.day ∧ r.ticketDate.day ≤ rg.2)
            then r.netWeight else 0)).sum := by
    intro rg
    rw [filteredIncoming_sentinel, totalWeight_filter]
    refine congrArg List.sum (List.map_congr_left (fun r hr => ?_))
    rw [dateOk_of_tod_zero _ r (htod r hr)]
    rfl
  simp only [h1]
  rw [sum_map_swap]
  have h2 : ∀ r ∈ rows,
      (ranges.map (fun rg =>
        if decide (rg.1 ≤ r.ticketDate.day ∧ r.ticketDate.day ≤ rg.2)
        then r.netWeight else 0)).sum = r.netWeight := by
    intro r hr
    rw [qsum_count ranges _ r.netWeight, hpart r hr]
    norm_num
  rw [List.map_congr_left h2]
  rfl

/-- C7 counterexample: a single record at noon of day 0, with the trivial
partition of its one-day date range into the single sub-range [0, 0]: the
record's day falls in exactly one sub-range, yet the filtered sub-range total
misses it, because the date filter compares the full timestamp. -/
theorem c7_counterexample :
    (∀ r ∈ [rowNoon],
      ([((0 : Int), (0 : Int))]).countP
        (fun rg => decide (rg.1 ≤ r.ticketDate.day ∧ r.ticketDate.day ≤ rg.2)) = 1)
    ∧ totalWeight [rowNoon]
        ≠ (([((0 : Int), (0 : Int))]).map
            (fun rg =>
              totalWeight (filteredIncoming (sentinelSpec rg.1 rg.2 [rowNoon]) [rowNoon]))).sum := by
  constructor
  · decide
  · have h : filteredIncoming (sentinelSpec 0 0 [rowNoon]) [rowNoon] = [] := rfl
    simp only [List.map_cons, List.map_nil, List.sum_cons, List.sum_nil]
    rw [h]
    norm_num [totalWeight, rowNoon]

/-- Witness for the amended C7: two midnight-stamped records, and a partition
of days 0-3 into [0, 0] and [1, 3]. -/
theorem c7_weight_conservation_witness :
    totalWeight [rowA, rowB]
      = (([((0 : Int), (0 : Int)), ((1 : Int), (3 : Int))]).map
          (fun rg =>
            totalWeight (filteredIncoming (sentinelSpec rg.1 rg.2 [rowA, rowB]) [rowA, rowB]))).sum :=
  c7_weight_conservation [rowA, rowB] [(0, 0), (1, 3)] (by decide) (by decide)
